import Mathlib

/-!
Verification development for the `computer-use-demo` session orchestration
layer: a shallow embedding of the Python modules
`computer_use_demo/streamlit.py`, `computer_use_demo/websocket.py`,
`computer_use_demo/singleton_storage.py` and `email_utils.py`,
followed by theorems settling the specification claims.

Python dictionaries are embedded as insertion-ordered association lists;
`dictInsert` mirrors `d[k] = v` (update in place if the key exists,
append otherwise).  Python exceptions are embedded as `Except`/`Option`
results.
-/

namespace ComputerUseDemo

/-- Lookup in an insertion-ordered association list (Python `d[k]` / `k in d`). -/
def dictLookup {α : Type} (d : List (String × α)) (k : String) : Option α :=
  match d with
  | [] => none
  | (k', v) :: rest => if k' = k then some v else dictLookup rest k

/-- Python `d[k] = v`: replace the value in place if `k` is present, else append. -/
def dictInsert {α : Type} (d : List (String × α)) (k : String) (v : α) :
    List (String × α) :=
  match d with
  | [] => [(k, v)]
  | (k', v') :: rest =>
      if k' = k then (k, v) :: rest else (k', v') :: dictInsert rest k v

/-! ## Data model

Content blocks as used in `streamlit.py`: `BetaTextBlockParam`,
tool-use blocks produced by the engine, and `BetaToolResultBlockParam`. -/

inductive Block where
  | text (text : String)
  | toolUse (id : String) (name : String) (input : String)
  | toolResult (tool_use_id : String) (content : String) (isErrorFlag : Bool)
deriving DecidableEq, Repr

/-- A transcript message: `role` and ordered `content` blocks. -/
structure Message where
  role : String
  content : List Block
deriving DecidableEq, Repr

/-- `ToolResult` from `computer_use_demo/tools` (the module is not part of the
sources here; the record shape is taken from its uses in `streamlit.py`:
`ToolResult(error=...)`, `message.output`, `message.error`,
`message.base64_image`, matching the spec's
`ToolResult = (output?, error?, attachment?)`). -/
structure ToolResult where
  output : Option String := none
  error : Option String := none
  base64_image : Option String := none
deriving DecidableEq, Repr

/-- The per-run streamlit state dictionary (the keys used by the functions
embedded here: `messages`, `tools`, `in_sampling_loop`). -/
structure AppState where
  messages : List Message
  tools : List (String × ToolResult)
  in_sampling_loop : Bool
deriving DecidableEq, Repr

/-- `streamlit.py`: `INTERRUPT_TEXT`. -/
def INTERRUPT_TEXT : String := "(user stopped or interrupted and wrote the following)"

/-- `streamlit.py`: `INTERRUPT_TOOL_ERROR`. -/
def INTERRUPT_TOOL_ERROR : String := "human stopped or interrupted tool execution"

/-- The list comprehension in `maybe_add_interruption_blocks`:
ids of the `tool_use` blocks of a content list. -/
def toolUseIds (content : List Block) : List String :=
  content.filterMap fun b =>
    match b with
    | Block.toolUse id _ _ => some id
    | _ => none

/-- The blocks appended by the healing loop, one error tool-result block
per tool-use id. -/
def interruptBlocks (ids : List String) : List Block :=
  ids.map fun id => Block.toolResult id INTERRUPT_TOOL_ERROR true

/-- The effect of the healing loop on `state["tools"]`:
`state["tools"][tool_use_id] = ToolResult(error=INTERRUPT_TOOL_ERROR)` per id. -/
def interruptTools (tools : List (String × ToolResult)) (ids : List String) :
    List (String × ToolResult) :=
  ids.foldl (fun d id => dictInsert d id { error := some INTERRUPT_TOOL_ERROR }) tools

/-- `streamlit.py` lines 155-176, `maybe_add_interruption_blocks`.
Returns `none` where Python raises `IndexError`
(`state["messages"][-1]` on an empty list); otherwise the produced block
list together with the updated state (the loop writes into
`state["tools"]`). -/
def maybe_add_interruption_blocks (state : AppState) :
    Option (List Block × AppState) :=
  if state.in_sampling_loop = false then
    some ([], state)
  else
    match state.messages.getLast? with
    | none => none
    | some last_message =>
        let ids := toolUseIds last_message.content
        some (interruptBlocks ids ++ [Block.text INTERRUPT_TEXT],
              { state with tools := interruptTools state.tools ids })

/-- The transcript effect of one healing pass followed by the user-message
append in `main` (`streamlit.py` lines 116-124): the healing blocks and the
new trigger text become the content of one appended user message. -/
def healApply (state : AppState) (trigger : String) : Option AppState :=
  match maybe_add_interruption_blocks state with
  | none => none
  | some (blocks, st) =>
      some { st with
             messages := st.messages ++
               [{ role := "user", content := blocks ++ [Block.text trigger] }] }

/-! ## The orchestrator run (`main` in `streamlit.py`) -/

/-- Engine-level exceptions raised by `sampling_loop` (rate-limit or
transport errors of the provider client). -/
inductive EngineErr where
  | rateLimit
  | transport (msg : String)
deriving DecidableEq, Repr

/-- Exceptions escaping `main` itself. -/
inductive RunErr where
  | engineRaised (e : EngineErr)
  | indexError
  | keyError
deriving DecidableEq, Repr

/-- `state["messages"][-1]["content"][0]["text"]` (`streamlit.py` line 147):
`IndexError` on an empty list, `KeyError` when the first block of the final
message is not a text block. -/
def finalText (msgs : List Message) : Except RunErr String :=
  match msgs.getLast? with
  | none => Except.error RunErr.indexError
  | some m =>
      match m.content.head? with
      | none => Except.error RunErr.indexError
      | some (Block.text t) => Except.ok t
      | some _ => Except.error RunErr.keyError

/-- The fresh state built by `setup_state({})` at the top of `main`
(the keys modeled here; `in_sampling_loop` defaults to `False`). -/
def initialState : AppState :=
  { messages := [], tools := [], in_sampling_loop := false }

/-- Result of one `main` call: the value returned or exception raised, and
the final contents of the state dictionary. -/
structure RunOutcome where
  result : Except RunErr String
  finalState : AppState
deriving Repr

/-- `streamlit.py` lines 110-152, `main`, with the external `sampling_loop`
supplied as a function from the transcript to either updated messages or a
raised engine error.  `track_sampling_loop` (lines 179-183) is a
`@contextmanager` whose generator has no `try/finally`: when the body
raises, the statement after `yield` is skipped, so `in_sampling_loop` is
reset to `False` only on the normal-return path. -/
def runMain (new_message : String)
    (engine : List Message → Except EngineErr (List Message)) : RunOutcome :=
  match maybe_add_interruption_blocks initialState with
  | none => { result := Except.error RunErr.indexError, finalState := initialState }
  | some (healBlocks, st0) =>
      let st1 := { st0 with
                   messages := st0.messages ++
                     [({ role := "user",
                         content := healBlocks ++ [Block.text new_message] } :
                        Message)] }
      let st2 := { st1 with in_sampling_loop := true }
      match engine st2.messages with
      | Except.error e =>
          { result := Except.error (RunErr.engineRaised e), finalState := st2 }
      | Except.ok msgs =>
          let st3 := { st2 with messages := msgs }
          let st4 := { st3 with in_sampling_loop := false }
          match finalText st4.messages with
          | Except.error e => { result := Except.error e, finalState := st4 }
          | Except.ok t => { result := Except.ok t, finalState := st4 }

/-- `Except.isOk`-style discriminator used to phrase run outcomes. -/
def exceptIsOk {ε α : Type} : Except ε α → Bool
  | Except.ok _ => true
  | Except.error _ => false

/-- The single user message `main` builds on a fresh state. -/
def initialUserMessage (t : String) : Message :=
  { role := "user", content := [Block.text t] }

/-! ## The realtime channel server (`websocket.py`) -/

/-- A session record stored in `session_state.data`: the handler reads the
`messages` key and writes the `ws` key; `rest` stands for any other keys of
the record dictionary. -/
structure Session where
  messages : List Message
  ws : Option Nat
  rest : List (String × String)
deriving DecidableEq, Repr

/-- `websocket.py` line 15: `session_id = websocket.request.path[1:]`. -/
def sessionIdOfPath (path : String) : String := path.drop 1

/-- `json.dumps` string quoting (default ensure-ascii detail elided; quote
and backslash escaped). -/
def jsonEscapeChar (c : Char) : String :=
  if c = '\\' then "\\\\"
  else if c = '\x22' then "\\\x22"
  else String.singleton c

/-- A JSON string literal. -/
def jsonStr (s : String) : String :=
  "\x22" ++ String.join (s.toList.map jsonEscapeChar) ++ "\x22"

/-- A JSON array with `json.dumps` default separators. -/
def jsonArr (xs : List String) : String :=
  "[" ++ String.intercalate ", " xs ++ "]"

/-- JSON object for one content block, with the key layout of the
`Beta*BlockParam` dictionaries. -/
def blockToJson : Block → String
  | Block.text t =>
      "\x7b\x22type\x22: \x22text\x22, \x22text\x22: " ++ jsonStr t ++ "\x7d"
  | Block.toolUse id name input =>
      "\x7b\x22type\x22: \x22tool_use\x22, \x22id\x22: " ++ jsonStr id ++
        ", \x22name\x22: " ++ jsonStr name ++ ", \x22input\x22: " ++
        jsonStr input ++ "\x7d"
  | Block.toolResult id content isErrorFlag =>
      "\x7b\x22type\x22: \x22tool_result\x22, \x22tool_use_id\x22: " ++
        jsonStr id ++ ", \x22content\x22: " ++ jsonStr content ++
        ", \x22is_error\x22: " ++ (if isErrorFlag then "true" else "false") ++
        "\x7d"

/-- JSON object for one message. -/
def messageToJson (m : Message) : String :=
  "\x7b\x22role\x22: " ++ jsonStr m.role ++ ", \x22content\x22: " ++
    jsonArr (m.content.map blockToJson) ++ "\x7d"

/-- `json.dumps(session_state.data[session_id]["messages"])`: the whole
transcript serialized as one JSON array. -/
def messagesToJson (ms : List Message) : String :=
  jsonArr (ms.map messageToJson)

/-- `websocket.py` lines 11-21, the attach phase of `handler`: resolve the
session id from the connection path; if present in the store, record the
live connection under `ws` and send the serialized `messages` snapshot;
otherwise log session-not-found (payload `none`) and leave the store
untouched.  Returns the updated store and the payload sent, if any. -/
def handlerAttach (store : List (String × Session)) (path : String)
    (conn : Nat) : List (String × Session) × Option String :=
  let session_id := sessionIdOfPath path
  match dictLookup store session_id with
  | some sess =>
      let sess' := { sess with ws := some conn }
      (dictInsert store session_id sess', some (messagesToJson sess'.messages))
  | none => (store, none)

/-! ## The session store singleton (`singleton_storage.py`) -/

/-- One `SingletonStorage` object: an identity tag (standing for the Python
object identity) and its `data` dictionary. -/
structure StorageInst where
  objId : Nat
  data : List (String × Session)
deriving DecidableEq, Repr

/-- `SingletonStorage.__new__` (`singleton_storage.py` lines 7-12), acting on
the class attribute `_instance` (`none` before the first construction):
under the class lock, allocate a fresh object with `data = \x7b\x7d` only
when `_instance is None`, else return the stored instance unchanged.
Returns the constructed object and the new `_instance` attribute. -/
def singletonNew (instanceVar : Option StorageInst) (freshId : Nat) :
    StorageInst × Option StorageInst :=
  match instanceVar with
  | none => ({ objId := freshId, data := [] }, some { objId := freshId, data := [] })
  | some inst => (inst, some inst)

/-! ## Trigger processing (`email_utils.py`) -/

/-- Outcome of `process_single_email` for one mailbox item: whether the item
ended up flagged `\Seen`, and whether an exception escaped to the
`read_emails` cycle-level handler. -/
structure PollOutcome where
  markedSeen : Bool
  raised : Bool
deriving DecidableEq, Repr

/-- `email_utils.py` lines 47-71, `send_email`: the entire body is wrapped
in `try/except Exception` whose handler only prints, so a failing SMTP
delivery is swallowed and the function returns normally either way.
Returns whether the delivery itself succeeded (observable only in the log). -/
def send_email (delivery : Except String Unit) : Bool :=
  match delivery with
  | Except.ok _ => true
  | Except.error _ => false

/-- `email_utils.py` lines 100-139, `process_single_email`, for one item
with flag state `is_read`; the effects are supplied as arguments:
`run` is the outcome of `askgpt_and_start_session` (a raise propagates out
of this coroutine), `delivery` the outcome of the SMTP send inside
`send_email`, and `storeOk` whether `mail.store(num, "+FLAGS", "..Seen")`
returns OK. -/
def process_single_email (is_read : Bool) (run : Except String String)
    (delivery : Except String Unit) (storeOk : Bool) : PollOutcome :=
  if is_read = false then
    match run with
    | Except.error _ =>
        { markedSeen := false, raised := true }
    | Except.ok _reply =>
        let _sent := send_email delivery
        { markedSeen := storeOk, raised := false }
  else
    { markedSeen := false, raised := false }

/-! ## Process-wide global state

`streamlit.py` line 83 defines the module-level dictionary
`messages_for_session_id`; `singleton_storage.py` holds the store's `data`
dictionary.  The only code in the repository touching these globals is
`websocket.handler` (reads the store, writes a `ws` reference) and
`streamlit._render_message` (writes `messages_for_session_id`). -/

/-- The value written by `_render_message`: a plain string, a content-block
dictionary, or a `ToolResult` object. -/
inductive Rendered where
  | str (s : String)
  | blk (b : Block)
  | tool (t : ToolResult)
deriving DecidableEq, Repr

/-- Python truthiness of a `Rendered` value for the `if not message` guard:
an empty string is falsy; the block dictionaries here are never empty; the
`ToolResult` dataclass is truthy when any field is set (its class is outside
these sources; this follows the spec's optional-field record). -/
def renderedTruthy : Rendered → Bool
  | Rendered.str s => s ≠ ""
  | Rendered.blk _ => true
  | Rendered.tool t => t.output.isSome || t.error.isSome || t.base64_image.isSome

/-- `streamlit.py` lines 284-320, `_render_message`, restricted to its
effect on the module-level `messages_for_session_id` dictionary: after the
early-return guard, `messages_for_session_id[session_id] = message`; a
`tool_result`-typed dictionary then raises the unexpected-response-type
exception (after the write).  Returns the updated dictionary and the raise
outcome. -/
def renderMessage (mfs : List (String × Rendered)) (session_id : String)
    (message : Rendered) : List (String × Rendered) × Except String Unit :=
  if renderedTruthy message = false then
    (mfs, Except.ok ())
  else
    let mfs' := dictInsert mfs session_id message
    match message with
    | Rendered.str _ => (mfs', Except.ok ())
    | Rendered.tool _ => (mfs', Except.ok ())
    | Rendered.blk (Block.text _) => (mfs', Except.ok ())
    | Rendered.blk (Block.toolUse _ _ _) => (mfs', Except.ok ())
    | Rendered.blk (Block.toolResult _ _ _) =>
        (mfs', Except.error "Unexpected response type tool_result")

/-- The global mutable state of the process: the singleton store's `data`
and `messages_for_session_id`. -/
structure Globals where
  store : List (String × Session)
  mfs : List (String × Rendered)
deriving DecidableEq, Repr

/-- The operations in the repository that touch the global state: a
subscriber attach handled by `websocket.handler`, and a relay write by
`_render_message`. -/
inductive SysOp where
  | attach (path : String) (conn : Nat)
  | render (session_id : String) (message : Rendered)

/-- One global-state transition. -/
def stepOp (g : Globals) : SysOp → Globals
  | SysOp.attach path conn => { g with store := (handlerAttach g.store path conn).1 }
  | SysOp.render sid message => { g with mfs := (renderMessage g.mfs sid message).1 }

/-- A sequence of operations from a starting global state. -/
def runOps (g : Globals) (ops : List SysOp) : Globals :=
  ops.foldl stepOp g

/-- The global state right after module import: the singleton is constructed
with an empty `data` dictionary and `messages_for_session_id` is empty. -/
def initGlobals : Globals :=
  { store := [], mfs := [] }

/-! ## Derived observations and concrete example states -/

/-- Whether a block is a tool-result block. -/
def isToolResultBlock : Block → Bool
  | Block.toolResult _ _ _ => true
  | _ => false

/-- Number of tool-result blocks in a block list. -/
def countToolResultBlocks (bs : List Block) : Nat :=
  (bs.filter isToolResultBlock).length

/-- The synthesized interruption `ToolResult`. -/
def interruptedToolResult : ToolResult :=
  { error := some INTERRUPT_TOOL_ERROR }

/-- Ids in `content` that have no entry yet in `tools` (the unanswered
invocation ids the spec's healing clause quantifies over). -/
def unansweredIds (content : List Block) (tools : List (String × ToolResult)) :
    List String :=
  (toolUseIds content).filter fun id => (dictLookup tools id).isNone

/-- A session state interrupted mid-run whose single pending `tool_use` id
already has an entry in `tools`: zero unanswered invocation ids. -/
def cxAnswered : AppState :=
  { messages := [{ role := "assistant",
                   content := [Block.toolUse "a" "bash" "ls"] }],
    tools := [("a", { output := some "done" })],
    in_sampling_loop := true }

/-- A session state interrupted mid-run with two pending `tool_use` ids and
no stored results. -/
def exTwoPending : AppState :=
  { messages := [{ role := "assistant",
                   content := [Block.toolUse "a" "bash" "ls",
                               Block.toolUse "b" "str_replace" "x"] }],
    tools := [],
    in_sampling_loop := true }

/-- The healing blocks produced on `exTwoPending`. -/
def exTwoPendingBlocks : List Block :=
  [Block.toolResult "a" INTERRUPT_TOOL_ERROR true,
   Block.toolResult "b" INTERRUPT_TOOL_ERROR true,
   Block.text INTERRUPT_TEXT]

/-- The state produced by healing `exTwoPending`. -/
def exTwoPendingHealed : AppState :=
  { exTwoPending with
    tools := [("a", interruptedToolResult), ("b", interruptedToolResult)] }

/-- The user message appended by one healing-and-append pass: healing
blocks for `ids`, the interruption annotation, then the trigger text. -/
def healedUserMessage (ids : List String) (t : String) : Message :=
  { role := "user",
    content := (interruptBlocks ids ++ [Block.text INTERRUPT_TEXT]) ++
      [Block.text t] }

/-- The user message appended by a healing pass that found no pending
`tool_use` ids: just the annotation and the trigger text. -/
def annotationUserMessage (t : String) : Message :=
  { role := "user", content := [Block.text INTERRUPT_TEXT, Block.text t] }

/-- A session state marked active with a plain-text last message. -/
def exActiveText : AppState :=
  { messages := [{ role := "user", content := [Block.text "hi"] }],
    tools := [],
    in_sampling_loop := true }

/-- `exActiveText` after one healing-and-append pass with trigger `"go"`. -/
def exActiveTextOnce : AppState :=
  { exActiveText with
    messages := exActiveText.messages ++
      [{ role := "user",
         content := [Block.text INTERRUPT_TEXT, Block.text "go"] }] }

/-- `exActiveText` after two healing-and-append passes with trigger `"go"`. -/
def exActiveTextTwice : AppState :=
  { exActiveTextOnce with
    messages := exActiveTextOnce.messages ++
      [{ role := "user",
         content := [Block.text INTERRUPT_TEXT, Block.text "go"] }] }

/-- An engine whose run ends in a message whose text content is empty. -/
def engineEmptyText : List Message → Except EngineErr (List Message) :=
  fun _ => Except.ok [{ role := "assistant", content := [Block.text ""] }]

/-- An engine whose run ends in the text `"hello"`. -/
def engineHello : List Message → Except EngineErr (List Message) :=
  fun _ => Except.ok [{ role := "assistant", content := [Block.text "hello"] }]

/-- A session record with one short transcript. -/
def exSess : Session :=
  { messages := [{ role := "user", content := [Block.text "hello"] }],
    ws := none,
    rest := [("created", "t0")] }

/-- A second session record. -/
def exSess2 : Session :=
  { messages := [{ role := "assistant", content := [Block.text "hi s2"] }],
    ws := some 3,
    rest := [] }

/-- A store holding sessions `"s1"` and `"s2"`. -/
def exStore : List (String × Session) :=
  [("s1", exSess), ("s2", exSess2)]

/-! ## Dictionary lemmas -/

theorem dictLookup_insert_self {α : Type} (d : List (String × α)) (k : String)
    (v : α) : dictLookup (dictInsert d k v) k = some v := by
  induction d with
  | nil => simp [dictLookup, dictInsert]
  | cons p rest ih =>
      obtain ⟨k', v'⟩ := p
      by_cases h : k' = k
      · simp [dictLookup, dictInsert, h]
      · simp [dictLookup, dictInsert, h, ih]

theorem dictLookup_insert_ne {α : Type} (d : List (String × α)) (k k' : String)
    (v : α) (h : k' ≠ k) :
    dictLookup (dictInsert d k v) k' = dictLookup d k' := by
  have hne : ¬k = k' := fun hh => h hh.symm
  induction d with
  | nil =>
      simp only [dictInsert, dictLookup]
      rw [if_neg hne]
  | cons p rest ih =>
      obtain ⟨k'', v''⟩ := p
      simp only [dictInsert]
      by_cases hk : k'' = k
      · rw [if_pos hk]
        simp only [dictLookup]
        rw [if_neg hne, if_neg (hk ▸ hne : ¬k'' = k')]
      · rw [if_neg hk]
        simp only [dictLookup]
        by_cases hk' : k'' = k'
        · rw [if_pos hk', if_pos hk']
        · rw [if_neg hk', if_neg hk', ih]

/-! ## Healing lemmas -/

theorem getLast?_append_single {α : Type} (l : List α) (a : α) :
    (l ++ [a]).getLast? = some a := by
  rw [List.getLast?_append_cons]
  rfl

theorem toolUseIds_append (xs ys : List Block) :
    toolUseIds (xs ++ ys) = toolUseIds xs ++ toolUseIds ys := by
  simp [toolUseIds, List.filterMap_append]

theorem toolUseIds_interruptBlocks (ids : List String) :
    toolUseIds (interruptBlocks ids) = [] := by
  induction ids with
  | nil => rfl
  | cons a rest ih =>
      simp only [toolUseIds, interruptBlocks, List.map_cons,
        List.filterMap_cons] at *
      exact ih

theorem countToolResultBlocks_interruptBlocks (ids : List String) :
    countToolResultBlocks (interruptBlocks ids) = ids.length := by
  induction ids with
  | nil => rfl
  | cons a rest ih =>
      simp only [countToolResultBlocks, interruptBlocks, List.map_cons,
        List.filter, isToolResultBlock, List.length_cons] at *
      rw [ih]

theorem interruptTools_cons (tools : List (String × ToolResult)) (a : String)
    (rest : List String) :
    interruptTools tools (a :: rest)
      = interruptTools (dictInsert tools a interruptedToolResult) rest := rfl

theorem dictLookup_interruptTools_not_mem (ids : List String)
    (tools : List (String × ToolResult)) (id : String) (h : id ∉ ids) :
    dictLookup (interruptTools tools ids) id = dictLookup tools id := by
  induction ids generalizing tools with
  | nil => rfl
  | cons a rest ih =>
      rw [interruptTools_cons, ih _ (fun hm => h (List.mem_cons_of_mem _ hm))]
      exact dictLookup_insert_ne tools a id interruptedToolResult
        (fun hh => h (hh ▸ List.mem_cons_self a rest))

theorem dictLookup_interruptTools_mem (ids : List String)
    (tools : List (String × ToolResult)) (id : String) (h : id ∈ ids) :
    dictLookup (interruptTools tools ids) id = some interruptedToolResult := by
  induction ids generalizing tools with
  | nil => cases h
  | cons a rest ih =>
      rw [interruptTools_cons]
      by_cases hm : id ∈ rest
      · exact ih _ hm
      · have ha : id = a := by
          rcases List.mem_cons.mp h with h' | h'
          · exact h'
          · exact absurd h' hm
        subst ha
        rw [dictLookup_interruptTools_not_mem rest _ id hm]
        exact dictLookup_insert_self tools id interruptedToolResult

/-! ## Websocket handler lemmas -/

theorem handlerAttach_empty (path : String) (conn : Nat) :
    handlerAttach [] path conn = ([], none) := rfl

theorem handlerAttach_store_of_not_found (store : List (String × Session))
    (path : String) (conn : Nat)
    (h : dictLookup store (sessionIdOfPath path) = none) :
    handlerAttach store path conn = (store, none) := by
  simp [handlerAttach, h]

/-! ## Claim theorems -/

/-- Claim C5 (confirmed): on a subscriber attach, if the session id named by
the connection path is present in the store, the handler sends that
session's full current `messages` list serialized as one JSON array; if it
is absent, the attach is reported as not-found (payload `none`) and the
store — hence every existing session's state — is left unmodified. -/
theorem subscribe_snapshot_or_not_found (store : List (String × Session))
    (path : String) (conn : Nat) :
    (∀ sess, dictLookup store (sessionIdOfPath path) = some sess →
        (handlerAttach store path conn).2 = some (messagesToJson sess.messages))
    ∧ (dictLookup store (sessionIdOfPath path) = none →
        handlerAttach store path conn = (store, none)) := by
  constructor
  · intro sess hs
    simp [handlerAttach, hs]
  · intro hn
    exact handlerAttach_store_of_not_found store path conn hn

/-- Witness for C5: on `exStore`, attaching at path `/s1` receives the
serialized transcript of session `s1`, and attaching at `/ghost` leaves the
store untouched with no payload. -/
theorem subscribe_snapshot_or_not_found_witness :
    (handlerAttach exStore "/s1" 7).2 = some (messagesToJson exSess.messages)
    ∧ handlerAttach exStore "/ghost" 7 = (exStore, none) :=
  ⟨(subscribe_snapshot_or_not_found exStore "/s1" 7).1 exSess (by decide),
   (subscribe_snapshot_or_not_found exStore "/ghost" 7).2 (by decide)⟩

/-- Claim C7 (confirmed): a subscriber attach changes at most the stored
live-connection reference (`ws`) of the addressed session's record: every
other session's record is untouched, the addressed record keeps its
`messages` and all other fields, and only its `ws` field is replaced by the
new connection. -/
theorem attach_frame (store : List (String × Session)) (path : String)
    (conn : Nat) :
    (∀ sid, sid ≠ sessionIdOfPath path →
        dictLookup (handlerAttach store path conn).1 sid = dictLookup store sid)
    ∧ (∀ sess, dictLookup store (sessionIdOfPath path) = some sess →
        dictLookup (handlerAttach store path conn).1 (sessionIdOfPath path)
          = some { sess with ws := some conn })
    ∧ (∀ sess sess', dictLookup store (sessionIdOfPath path) = some sess →
        dictLookup (handlerAttach store path conn).1 (sessionIdOfPath path)
          = some sess' →
        sess'.messages = sess.messages ∧ sess'.rest = sess.rest) := by
  refine ⟨?_, ?_, ?_⟩
  · intro sid hne
    cases hs : dictLookup store (sessionIdOfPath path) with
    | none => simp [handlerAttach, hs]
    | some sess =>
        simp only [handlerAttach, hs]
        exact dictLookup_insert_ne store (sessionIdOfPath path) sid _ hne
  · intro sess hs
    simp only [handlerAttach, hs]
    exact dictLookup_insert_self store (sessionIdOfPath path) _
  · intro sess sess' hs hs'
    have h2 : dictLookup (handlerAttach store path conn).1 (sessionIdOfPath path)
        = some { sess with ws := some conn } := by
      simp only [handlerAttach, hs]
      exact dictLookup_insert_self store (sessionIdOfPath path) _
    rw [hs'] at h2
    have : sess' = { sess with ws := some conn } := Option.some.inj h2
    subst this
    exact ⟨rfl, rfl⟩

/-- Witness for C7: on `exStore`, attaching connection `9` at `/s2` leaves
session `s1` untouched, rebinds only `ws` of `s2`, and preserves the
`messages` and remaining fields of `s2`. -/
theorem attach_frame_witness :
    dictLookup (handlerAttach exStore "/s2" 9).1 "s1" = dictLookup exStore "s1"
    ∧ dictLookup (handlerAttach exStore "/s2" 9).1 (sessionIdOfPath "/s2")
        = some { exSess2 with ws := some 9 }
    ∧ ({ exSess2 with ws := some 9 } : Session).messages = exSess2.messages
      ∧ ({ exSess2 with ws := some 9 } : Session).rest = exSess2.rest :=
  ⟨(attach_frame exStore "/s2" 9).1 "s1" (by decide),
   (attach_frame exStore "/s2" 9).2.1 exSess2 (by decide),
   (attach_frame exStore "/s2" 9).2.2 exSess2 { exSess2 with ws := some 9 }
     (by decide)
     ((attach_frame exStore "/s2" 9).2.1 exSess2 (by decide))⟩

/-- Claim C8 (confirmed): `SingletonStorage.__new__` creates the store
lazily exactly once: the first construction initializes `data` to the empty
dictionary, a second construction returns the very same instance, and
constructing while an instance exists returns that instance with its `data`
preserved unchanged. -/
theorem singleton_construction (f1 f2 : Nat) (inst : StorageInst) :
    (singletonNew none f1).1.data = []
    ∧ (singletonNew (singletonNew none f1).2 f2).1 = (singletonNew none f1).1
    ∧ singletonNew (some inst) f2 = (inst, some inst) :=
  ⟨rfl, rfl, rfl⟩

/-- Claim C9 (confirmed): starting from the post-import global state, no
operation in the repository — subscriber attaches or `_render_message`
relay writes (which go to the separate module-level
`messages_for_session_id` dictionary) — ever inserts a session entry into
the singleton store's `data` map; the map stays empty in every reachable
state, so every attach takes the session-not-found branch and the
snapshot-sending branch of the websocket handler is unreachable. -/
theorem store_stays_empty (ops : List SysOp) :
    (runOps initGlobals ops).store = []
    ∧ ∀ path conn,
        handlerAttach (runOps initGlobals ops).store path conn
          = ((runOps initGlobals ops).store, none) := by
  have hinv : ∀ (l : List SysOp) (g : Globals), g.store = [] →
      (runOps g l).store = [] := by
    intro l
    induction l with
    | nil => intro g hg; exact hg
    | cons op rest ih =>
        intro g hg
        cases op with
        | attach path conn =>
            have : (stepOp g (SysOp.attach path conn)).store = [] := by
              simp [stepOp, hg, handlerAttach_empty]
            exact ih _ this
        | render sid message =>
            have : (stepOp g (SysOp.render sid message)).store = [] := by
              simp [stepOp, hg]
            exact ih _ this
  have hempty : (runOps initGlobals ops).store = [] := hinv ops initGlobals rfl
  refine ⟨hempty, ?_⟩
  intro path conn
  rw [hempty]
  exact handlerAttach_empty path conn

/-- Claim C10 (confirmed): `maybe_add_interruption_blocks` has an unstated
precondition: with `in_sampling_loop` true and an empty `messages` list it
faults (`state["messages"][-1]` raises `IndexError`, embedded as `none`)
instead of returning healing blocks; it is total whenever `messages` is
non-empty, and also whenever the run is not marked active. -/
theorem healer_empty_messages_fault (s : AppState) :
    (s.in_sampling_loop = true → s.messages = [] →
        maybe_add_interruption_blocks s = none)
    ∧ (s.messages ≠ [] →
        (maybe_add_interruption_blocks s).isSome = true)
    ∧ (s.in_sampling_loop = false →
        (maybe_add_interruption_blocks s).isSome = true) := by
  refine ⟨?_, ?_, ?_⟩
  · intro hloop hmsg
    simp [maybe_add_interruption_blocks, hloop, hmsg]
  · intro hne
    by_cases hloop : s.in_sampling_loop = false
    · simp [maybe_add_interruption_blocks, hloop]
    · cases hlast : s.messages.getLast? with
      | none => exact absurd (List.getLast?_eq_none_iff.mp hlast) hne
      | some last => simp [maybe_add_interruption_blocks, hloop, hlast]
  · intro hloop
    simp [maybe_add_interruption_blocks, hloop]

/-- Witness for C10: the healer faults on the active-but-empty state and is
defined on a non-empty one and on an inactive one. -/
theorem healer_empty_messages_fault_witness :
    maybe_add_interruption_blocks
        { messages := [], tools := [], in_sampling_loop := true } = none
    ∧ (maybe_add_interruption_blocks exActiveText).isSome = true
    ∧ (maybe_add_interruption_blocks
        { messages := [], tools := [], in_sampling_loop := false }).isSome
        = true :=
  ⟨(healer_empty_messages_fault
      { messages := [], tools := [], in_sampling_loop := true }).1 rfl rfl,
   (healer_empty_messages_fault exActiveText).2.1 (by decide),
   (healer_empty_messages_fault
      { messages := [], tools := [], in_sampling_loop := false }).2.2 rfl⟩

/-- Unfolding of `runMain` on the fresh state `main` builds: the healer
contributes nothing (the flag starts false), the engine is invoked on the
single user message, and the flag reset happens only on the engine's
normal-return path. -/
theorem runMain_eq (msg : String)
    (engine : List Message → Except EngineErr (List Message)) :
    runMain msg engine =
      match engine [initialUserMessage msg] with
      | Except.error e =>
          { result := Except.error (RunErr.engineRaised e),
            finalState := { messages := [initialUserMessage msg], tools := [],
                            in_sampling_loop := true } }
      | Except.ok msgs =>
          match finalText msgs with
          | Except.error e =>
              { result := Except.error e,
                finalState := { messages := msgs, tools := [],
                                in_sampling_loop := false } }
          | Except.ok t =>
              { result := Except.ok t,
                finalState := { messages := msgs, tools := [],
                                in_sampling_loop := false } } := rfl

/-- Claim C1 (corrected), counterexample to the claim as stated: when the
engine call raises (here a rate-limit error), `main` propagates the
exception with `in_sampling_loop` still true — the flag is not reset on the
exceptional exit path. -/
theorem run_flag_leak_counterexample :
    (runMain "hi" (fun _ => Except.error EngineErr.rateLimit)).finalState.in_sampling_loop
      = true := rfl

/-- Claim C1 (corrected, amended): `in_sampling_loop` is true exactly while
the engine invocation is in progress and is reset to false on the
normal-return path; but `track_sampling_loop` is a `@contextmanager` with
no `try/finally`, so when `sampling_loop` raises the reset is skipped and
after `main` raises the flag remains true.  Formally: after a run, the flag
is true iff the engine call raised. -/
theorem run_flag_release (msg : String)
    (engine : List Message → Except EngineErr (List Message)) :
    (runMain msg engine).finalState.in_sampling_loop
      = !(exceptIsOk (engine [initialUserMessage msg])) := by
  rw [runMain_eq]
  cases engine [initialUserMessage msg] with
  | error e => simp [exceptIsOk]
  | ok msgs =>
      cases hf : finalText msgs with
      | error e => simp [exceptIsOk, hf]
      | ok t => simp [exceptIsOk, hf]

/-- Claim C6 (corrected), counterexample to the claim as stated: a run
whose final message carries empty text returns normally with the empty
string — no `EmptyResult` failure is signalled to the caller (the code only
writes a log line). -/
theorem empty_final_text_counterexample :
    (runMain "x" engineEmptyText).result = Except.ok "" := rfl

/-- Claim C6 (corrected, amended): `main` returns the text of the first
content block of the final message of the transcript; when that text is
empty it logs an error but still returns normally with the empty string
(the code defines no `EmptyResult` failure). -/
theorem run_returns_final_first_text (msg : String)
    (engine : List Message → Except EngineErr (List Message))
    (msgs : List Message) (m : Message) (t : String) (rest : List Block)
    (heng : engine [initialUserMessage msg] = Except.ok msgs)
    (hlast : msgs.getLast? = some m)
    (hcontent : m.content = Block.text t :: rest) :
    (runMain msg engine).result = Except.ok t := by
  rw [runMain_eq, heng]
  have hft : finalText msgs = Except.ok t := by
    simp [finalText, hlast, hcontent]
  simp [hft]

/-- Witness for C6's amended theorem: a run ending in the text `"hello"`
returns it. -/
theorem run_returns_final_first_text_witness :
    (runMain "y" engineHello).result = Except.ok "hello" :=
  run_returns_final_first_text "y" engineHello
    [{ role := "assistant", content := [Block.text "hello"] }]
    { role := "assistant", content := [Block.text "hello"] } "hello" []
    rfl rfl rfl

/-- Claim C2 (corrected), counterexample to the claim as stated: with a
successful orchestrator run but a failing SMTP delivery, the item is still
marked `\Seen` — `send_email` swallows its exception, so an undelivered
reply does not keep the trigger available for the next poll cycle. -/
theorem trigger_ack_counterexample :
    process_single_email false (Except.ok "reply")
        (Except.error "smtp connection refused") true
      = { markedSeen := true, raised := false } := rfl

/-- Claim C2 (corrected, amended): an unread item is acknowledged iff the
orchestrator run succeeds and the IMAP `store` command succeeds; the
delivery outcome is ignored because `send_email` catches and swallows every
exception.  If the run raises, the item is left unacknowledged and the
exception escapes to the poll-cycle handler; already-read items are left
alone. -/
theorem trigger_ack_semantics (is_read : Bool) (run : Except String String)
    (delivery : Except String Unit) (storeOk : Bool) :
    (∀ e, is_read = false → run = Except.error e →
        process_single_email is_read run delivery storeOk
          = { markedSeen := false, raised := true })
    ∧ (∀ r, is_read = false → run = Except.ok r →
        process_single_email is_read run delivery storeOk
          = { markedSeen := storeOk, raised := false })
    ∧ (is_read = true →
        process_single_email is_read run delivery storeOk
          = { markedSeen := false, raised := false }) := by
  refine ⟨?_, ?_, ?_⟩
  · intro e h1 h2
    simp [process_single_email, h1, h2]
  · intro r h1 h2
    simp [process_single_email, h1, h2]
  · intro h1
    simp [process_single_email, h1]

/-- Witness for C2's amended theorem: a failed run leaves the item
unacknowledged; a successful run acknowledges it even though delivery
failed; a read item is untouched. -/
theorem trigger_ack_semantics_witness :
    process_single_email false (Except.error "imap fetch failed")
        (Except.ok ()) true
      = { markedSeen := false, raised := true }
    ∧ process_single_email false (Except.ok "r") (Except.error "down") true
      = { markedSeen := true, raised := false }
    ∧ process_single_email true (Except.ok "r") (Except.ok ()) true
      = { markedSeen := false, raised := false } :=
  ⟨(trigger_ack_semantics false (Except.error "imap fetch failed")
      (Except.ok ()) true).1 "imap fetch failed" rfl rfl,
   (trigger_ack_semantics false (Except.ok "r") (Except.error "down")
      true).2.1 "r" rfl rfl,
   (trigger_ack_semantics true (Except.ok "r") (Except.ok ()) true).2.2 rfl⟩

/-- Unfolding of `healApply` on an active state with a known last message:
the appended user message combines the synthesized error tool-result
blocks, the interruption annotation, and the trigger text, and
`state["tools"]` receives a synthesized result per `tool_use` id of the
last message. -/
theorem healApply_active (s : AppState) (last : Message) (t : String)
    (hloop : s.in_sampling_loop = true)
    (hlast : s.messages.getLast? = some last) :
    healApply s t = some
      { s with
        tools := interruptTools s.tools (toolUseIds last.content),
        messages := s.messages ++
          [healedUserMessage (toolUseIds last.content) t] } := by
  simp [healApply, maybe_add_interruption_blocks, hloop, hlast,
    healedUserMessage]

/-- A healing pass over a state whose last message has no pending
`tool_use` ids only appends the annotation user message. -/
theorem healApply_no_toolUse (s1 : AppState) (m1 : Message) (t : String)
    (hloop1 : s1.in_sampling_loop = true)
    (hlast1 : s1.messages.getLast? = some m1)
    (hids : toolUseIds m1.content = []) :
    healApply s1 t = some
      { s1 with messages := s1.messages ++ [annotationUserMessage t] } := by
  rw [healApply_active s1 m1 t hloop1 hlast1, hids]
  rfl

/-- Claim C3 (corrected), counterexample to the claim as stated: on a state
whose last message's single `tool_use` id already has an entry in the
`tools` map — zero unanswered invocation ids — the healer still synthesizes
one error tool-result block and overwrites the stored result, instead of
the zero synthesized results the claim requires. -/
theorem healing_unanswered_counterexample :
    (cxAnswered.messages.getLast?.map
        (fun m => (unansweredIds m.content cxAnswered.tools).length)) = some 0
    ∧ (maybe_add_interruption_blocks cxAnswered).map
        (fun p => countToolResultBlocks p.1) = some 1
    ∧ (maybe_add_interruption_blocks cxAnswered).map
        (fun p => dictLookup p.2.tools "a")
        = some (some interruptedToolResult) := by decide

/-- Claim C3 (corrected, amended): for an active state with a non-empty
transcript, the healer synthesizes one error ToolResult for every
`tool_use` id of the last message's content — regardless of whether the id
already has an entry in the `tools` map (an existing entry is overwritten)
— appends exactly that many error-flagged tool-result blocks, and the last
block it produces is the fixed interruption-annotation text block. -/
theorem healing_completeness (s : AppState) (blocks : List Block)
    (s' : AppState) (last : Message)
    (hloop : s.in_sampling_loop = true)
    (hlast : s.messages.getLast? = some last)
    (hrun : maybe_add_interruption_blocks s = some (blocks, s')) :
    countToolResultBlocks blocks = (toolUseIds last.content).length
    ∧ blocks.getLast? = some (Block.text INTERRUPT_TEXT)
    ∧ (∀ id ∈ toolUseIds last.content,
        dictLookup s'.tools id = some interruptedToolResult)
    ∧ s'.messages = s.messages := by
  simp only [maybe_add_interruption_blocks, hloop, hlast] at hrun
  rw [if_neg (by simp [hloop])] at hrun
  obtain ⟨hb, hs⟩ := Prod.mk.injEq .. ▸ Option.some.inj hrun
  subst hb
  subst hs
  refine ⟨?_, ?_, ?_, rfl⟩
  · rw [countToolResultBlocks, List.filter_append]
    simp only [List.length_append]
    have h1 : (List.filter isToolResultBlock [Block.text INTERRUPT_TEXT]).length = 0 := rfl
    rw [h1]
    have h2 := countToolResultBlocks_interruptBlocks (toolUseIds last.content)
    rw [countToolResultBlocks] at h2
    omega
  · exact getLast?_append_single _ _
  · intro id hm
    exact dictLookup_interruptTools_mem (toolUseIds last.content) s.tools id hm

/-- Witness for C3's amended theorem: on a state with two pending
`tool_use` ids and no stored results, healing produces two error blocks,
ends with the annotation block, and records both synthesized results. -/
theorem healing_completeness_witness :
    countToolResultBlocks exTwoPendingBlocks
        = (toolUseIds [Block.toolUse "a" "bash" "ls",
            Block.toolUse "b" "str_replace" "x"]).length
    ∧ exTwoPendingBlocks.getLast? = some (Block.text INTERRUPT_TEXT)
    ∧ (∀ id ∈ toolUseIds [Block.toolUse "a" "bash" "ls",
          Block.toolUse "b" "str_replace" "x"],
        dictLookup exTwoPendingHealed.tools id = some interruptedToolResult)
    ∧ exTwoPendingHealed.messages = exTwoPending.messages :=
  healing_completeness exTwoPending exTwoPendingBlocks exTwoPendingHealed
    { role := "assistant", content := [Block.toolUse "a" "bash" "ls",
        Block.toolUse "b" "str_replace" "x"] }
    rfl rfl (by decide)

/-- Claim C4 (corrected), counterexample to the claim as stated: healing an
active session twice does not equal healing it once — because the healer
appends the interruption-annotation text block unconditionally whenever
`in_sampling_loop` is true, the second pass grows the transcript again. -/
theorem healing_idempotence_counterexample :
    (healApply exActiveText "go").bind (fun s => healApply s "go")
      ≠ healApply exActiveText "go" := by decide

/-- Claim C4 (corrected, amended): on an active session the second healing
pass is idempotent on the `tools` map — no unanswered invocation ids remain,
so it synthesizes nothing — but it is not a no-op on the transcript: it
appends one further user message consisting of the interruption annotation
followed by the trigger text. -/
theorem healing_second_pass (s : AppState) (t : String) (s1 s2 : AppState)
    (hloop : s.in_sampling_loop = true)
    (h1 : healApply s t = some s1)
    (h2 : healApply s1 t = some s2) :
    s2.tools = s1.tools
    ∧ s2.messages = s1.messages ++ [annotationUserMessage t] := by
  cases hlast : s.messages.getLast? with
  | none =>
      rw [healApply] at h1
      simp [maybe_add_interruption_blocks, hloop, hlast] at h1
  | some last =>
      rw [healApply_active s last t hloop hlast] at h1
      have hs1 := (Option.some.inj h1).symm
      have hloop1 : s1.in_sampling_loop = true := by rw [hs1]; exact hloop
      have hlast1 : s1.messages.getLast?
          = some (healedUserMessage (toolUseIds last.content) t) := by
        rw [hs1]
        exact getLast?_append_single _ _
      have hids : toolUseIds (healedUserMessage (toolUseIds last.content) t).content
          = [] := by
        rw [healedUserMessage, toolUseIds_append, toolUseIds_append,
          toolUseIds_interruptBlocks (toolUseIds last.content)]
        rfl
      rw [healApply_no_toolUse s1 _ t hloop1 hlast1 hids] at h2
      have hs2 := (Option.some.inj h2).symm
      rw [hs2]
      exact ⟨rfl, rfl⟩

/-- Witness for C4's amended theorem: two healing passes over an active
one-message session leave `tools` fixed after the first pass and append one
more annotation message on the second. -/
theorem healing_second_pass_witness :
    exActiveTextTwice.tools = exActiveTextOnce.tools
    ∧ exActiveTextTwice.messages = exActiveTextOnce.messages ++
        [annotationUserMessage "go"] :=
  healing_second_pass exActiveText "go" exActiveTextOnce exActiveTextTwice
    rfl (by decide) (by decide)

end ComputerUseDemo
